import Mathlib

/-!
# FocusFusion front-end: shallow embedding of the client-side reconciliation logic

This file embeds the Collection-Store reconciliation handlers of the
FocusFusion front-end (Learning Plan page, Events page, Resources page,
comment component, confirmation modal) as pure Lean functions and proves
the specified properties about them.

Network calls are modelled by passing the gateway outcome (`Except`) as an
explicit argument and recording which calls the handler issued; toasts are
recorded as a list of notices.  A synchronous JavaScript `TypeError`
(dereferencing a `null` user) that escapes the handler uncaught is recorded
by the `crash` flag of the resulting `Step`.
-/

namespace FocusFusion

/-- A `likes` entry: `{userId, userName}`. -/
structure LikeEntry where
  userId : String
  userName : String
deriving Repr, DecidableEq

/-- A comment as stored inside an item's `comments` list. -/
structure CommentEntry where
  id : Nat
  userId : String
  userName : String
  content : String
  createdAt : Nat
  updatedAt : Nat
deriving Repr, DecidableEq

/-- An item of the Collection Store (a learning plan / post). -/
structure Item where
  id : Nat
  userId : String
  userName : String
  title : String
  description : String
  likes : List LikeEntry
  comments : List CommentEntry
deriving Repr, DecidableEq

/-- An event of the Events page. -/
structure EventItem where
  id : Nat
  title : String
  description : String
  date : String
  location : String
  category : String
  maxParticipants : Nat
deriving Repr, DecidableEq

/-- A resource of the Resources page. -/
structure Resource where
  id : Nat
  title : String
  description : String
  url : String
deriving Repr, DecidableEq

/-- The authenticated viewer (from the auth context). -/
structure User where
  id : String
  name : String
  profileImage : String
  token : String
deriving Repr, DecidableEq

/-- The draft data of the learning-plan creation form. -/
structure PlanDraft where
  title : String
  description : String
  topics : String
  resources : String
deriving Repr, DecidableEq

/-- A Fetch Gateway call issued by a handler (REST action plus routing ids). -/
inductive Call where
  | addLike (planId : Nat) (userId : String)
  | removeLike (planId : Nat) (userId : String)
  | addComment (planId : Nat)
  | updateComment (planId : Nat) (commentId : Nat)
  | deleteComment (planId : Nat) (commentId : Nat)
  | createPlan (userId : String)
  | deletePlan (planId : Nat)
  | postEvent (userId : String)
  | putEvent (eventId : Nat) (userId : String)
  | getEvents
  | deleteEvent (eventId : Nat) (userId : String)
  | registerEvent (eventId : Nat) (userId : String)
  | postResource (userId : String)
  | putResource (resourceId : Nat) (userId : String)
  | deleteResource (resourceId : Nat) (userId : String)
  | getResources
deriving Repr, DecidableEq

/-- A user-facing toast notification. -/
inductive Notice where
  | error (msg : String)
  | success (msg : String)
deriving Repr, DecidableEq

/-- Outcome of running one handler: resulting store, gateway calls issued
(in order), notices emitted (in order), and whether an uncaught exception
escaped the handler. -/
structure Step (α : Type) where
  store : List α
  calls : List Call
  notes : List Notice
  crash : Bool
deriving Repr, DecidableEq

/-- Embedding of `handleLike` of the Learning Plan page.

Source: scan the store for the plan, test whether the viewer's `userId`
appears in its `likes`; if liked, call remove-like and locally filter the
entry out; otherwise call add-like and replace the matching item with the
server's response.  Gateway failures are caught and produce a single error
toast, leaving the store untouched.  `removeResp` / `addResp` are the
outcomes the gateway would return for the respective call; only the one
actually issued is consumed. -/
def handleLike (currentUser : Option User) (learningPlans : List Item)
    (planId : Nat) (removeResp : Except Unit Unit) (addResp : Except Unit Item) :
    Step Item :=
  match currentUser with
  | none => ⟨learningPlans, [], [.error "You must be logged in to like this plan"], false⟩
  | some u =>
    let isLiked :=
      match learningPlans.find? (fun p => p.id == planId) with
      | some p => p.likes.any (fun l => l.userId == u.id)
      | none => false
    if isLiked then
      match removeResp with
      | .ok _ =>
        ⟨learningPlans.map (fun plan =>
            if plan.id == planId then
              { plan with likes := plan.likes.filter (fun l => l.userId != u.id) }
            else plan),
         [.removeLike planId u.id], [], false⟩
      | .error _ =>
        ⟨learningPlans, [.removeLike planId u.id], [.error "Failed to process like"], false⟩
    else
      match addResp with
      | .ok r =>
        ⟨learningPlans.map (fun plan => if plan.id == planId then r else plan),
         [.addLike planId u.id], [], false⟩
      | .error _ =>
        ⟨learningPlans, [.addLike planId u.id], [.error "Failed to process like"], false⟩

/-- JavaScript `String.prototype.trim`: drop leading and trailing
whitespace. -/
def jsTrim (s : String) : String :=
  ⟨((s.data.dropWhile Char.isWhitespace).reverse.dropWhile Char.isWhitespace).reverse⟩

/-- Embedding of `handlePlanSubmit` of the Learning Plan page: guard on the current user,
validate the required fields, then POST the draft and prepend the server's
created item; failures produce one error toast and leave the store alone. -/
def handlePlanSubmit (currentUser : Option User) (learningPlans : List Item)
    (data : PlanDraft) (resp : Except Unit Item) : Step Item :=
  match currentUser with
  | none => ⟨learningPlans, [], [.error "You must be logged in to share a learning plan"], false⟩
  | some u =>
    if (jsTrim data.title).isEmpty || (jsTrim data.description).isEmpty then
      ⟨learningPlans, [], [.error "Title and description are required"], false⟩
    else
      match resp with
      | .ok r =>
        ⟨r :: learningPlans, [.createPlan u.id],
         [.success "Learning plan shared successfully"], false⟩
      | .error _ =>
        ⟨learningPlans, [.createPlan u.id], [.error "Failed to share learning plan"], false⟩

/-- Embedding of `handleAddComment` of the Learning Plan page: guard on the current user,
POST the comment, and on success replace the whole matching item with the
server's response (server-authoritative). -/
def handleAddComment (currentUser : Option User) (learningPlans : List Item)
    (planId : Nat) (resp : Except Unit Item) : Step Item :=
  match currentUser with
  | none => ⟨learningPlans, [], [.error "You must be logged in to comment"], false⟩
  | some _ =>
    match resp with
    | .ok r =>
      ⟨learningPlans.map (fun plan => if plan.id == planId then r else plan),
       [.addComment planId], [], false⟩
    | .error _ =>
      ⟨learningPlans, [.addComment planId], [.error "Failed to add comment"], false⟩

/-- Embedding of `handleUpdateComment` of the Learning Plan page (pure local patch):
map over the store, and in the matching item map over its comments,
replacing the matching comment's `content` and stamping `updatedAt` with the
current time (`new Date()` is modelled by the explicit `now` argument). -/
def handleUpdateComment (learningPlans : List Item) (planId : Nat)
    (commentId : Nat) (updatedContent : String) (now : Nat) : List Item :=
  learningPlans.map fun plan =>
    if plan.id == planId then
      { plan with
        comments := plan.comments.map fun c =>
          if c.id == commentId then
            { c with content := updatedContent, updatedAt := now }
          else c }
    else plan

/-- Embedding of `handleDeleteComment` of the Learning Plan page (pure local patch):
filter the matching comment out of the matching item's comments. -/
def handleDeleteComment (learningPlans : List Item) (planId : Nat)
    (commentId : Nat) : List Item :=
  learningPlans.map fun plan =>
    if plan.id == planId then
      { plan with comments := plan.comments.filter (fun c => c.id != commentId) }
    else plan

/-- The user's choice in the blocking confirmation modal. -/
inductive ModalChoice where
  | confirm
  | cancel
deriving Repr, DecidableEq

/-- Embedding of `handleDelete` of the Learning Plan page, composed with the confirmation
modal: `openModal` shows the modal; cancel performs nothing; confirm runs the
captured callback which DELETEs and on success filters the item out of the
store.  With a `null` user the callback's `currentUser.token` dereference
throws inside the `try`, so the `catch` emits the same failure toast without
any gateway call. -/
def handleDeleteFlow (currentUser : Option User) (learningPlans : List Item)
    (planId : Nat) (choice : ModalChoice) (resp : Except Unit Unit) : Step Item :=
  match choice with
  | .cancel => ⟨learningPlans, [], [], false⟩
  | .confirm =>
    match currentUser with
    | none => ⟨learningPlans, [], [.error "Failed to delete learning plan"], false⟩
    | some _ =>
      match resp with
      | .ok _ =>
        ⟨learningPlans.filter (fun plan => plan.id != planId),
         [.deletePlan planId], [.success "Learning plan deleted"], false⟩
      | .error _ =>
        ⟨learningPlans, [.deletePlan planId], [.error "Failed to delete learning plan"], false⟩

/-- The `commentType` prop of the comment component, selecting the API module. -/
inductive CommentType where
  | skillSharing
  | learningProgress
  | learningPlans
  | invalid
deriving Repr, DecidableEq

/-- Embedding of `handleUpdate` of the comment component: validate the edited text, PUT the
updated comment, and on success apply the local `handleUpdateComment` patch
(no response body is consumed); failures emit one error toast. -/
def commentUpdateFlow (learningPlans : List Item) (postId : Nat)
    (commentId : Nat) (updatedContent : String) (now : Nat)
    (ctype : CommentType) (resp : Except Unit Unit) : Step Item :=
  if (jsTrim updatedContent).isEmpty then
    ⟨learningPlans, [], [], false⟩
  else
    match ctype with
    | .invalid => ⟨learningPlans, [], [.error "Invalid comment type"], false⟩
    | _ =>
      match resp with
      | .ok _ =>
        ⟨handleUpdateComment learningPlans postId commentId updatedContent now,
         [.updateComment postId commentId], [.success "Comment updated"], false⟩
      | .error _ =>
        ⟨learningPlans, [.updateComment postId commentId],
         [.error "Failed to update comment"], false⟩

/-- Embedding of `handleDelete` of the comment component, composed with the confirmation
modal: on confirm, DELETE the comment and on success apply the local
`handleDeleteComment` patch (no response body is consumed).  The confirmed
callback dereferences `currentUser.id` inside its `try` while building the
API call, so with a `null` user the `TypeError` is caught and the failure
toast fires with no gateway call. -/
def commentDeleteFlow (currentUser : Option User) (learningPlans : List Item)
    (postId : Nat) (commentId : Nat) (ctype : CommentType)
    (choice : ModalChoice) (resp : Except Unit Unit) : Step Item :=
  match choice with
  | .cancel => ⟨learningPlans, [], [], false⟩
  | .confirm =>
    match ctype with
    | .invalid => ⟨learningPlans, [], [.error "Invalid comment type"], false⟩
    | _ =>
      match currentUser with
      | none => ⟨learningPlans, [], [.error "Failed to delete comment"], false⟩
      | some _ =>
        match resp with
        | .ok _ =>
          ⟨handleDeleteComment learningPlans postId commentId,
           [.deleteComment postId commentId], [.success "Comment deleted"], false⟩
        | .error _ =>
          ⟨learningPlans, [.deleteComment postId commentId],
           [.error "Failed to delete comment"], false⟩

/-- Embedding of `handleSubmit` of the Events page: PUT (when the form carries an `id`) or
POST the event without any auth guard — with a `null` user the
`currentUser.id` in the URL throws an uncaught `TypeError` (`crash`) before
any call.  On mutation success a success toast fires and the whole list is
re-fetched; a refetch failure lands in the same `.catch`, emitting a second,
error toast after the success one. -/
def eventsHandleSubmit (currentUser : Option User) (events : List EventItem)
    (dataId : Option Nat) (mutResp : Except Unit Unit)
    (refetchResp : Except Unit (List EventItem)) : Step EventItem :=
  match currentUser with
  | none => ⟨events, [], [], true⟩
  | some u =>
    let mutCall : Call :=
      match dataId with
      | some i => .putEvent i u.id
      | none => .postEvent u.id
    let verb : String := match dataId with | some _ => "updated" | none => "created"
    let failVerb : String := match dataId with | some _ => "update" | none => "create"
    match mutResp with
    | .error _ =>
      ⟨events, [mutCall], [.error ("Failed to " ++ failVerb ++ " event.")], false⟩
    | .ok _ =>
      match refetchResp with
      | .ok list =>
        ⟨list, [mutCall, .getEvents],
         [.success ("Event " ++ verb ++ " successfully!")], false⟩
      | .error _ =>
        ⟨events, [mutCall, .getEvents],
         [.success ("Event " ++ verb ++ " successfully!"),
          .error ("Failed to " ++ failVerb ++ " event.")], false⟩

/-- Embedding of `handleDelete` of the Events page: DELETE with no auth guard (a `null`
user crashes building the URL, uncaught); on success filter the event out. -/
def eventsHandleDelete (currentUser : Option User) (events : List EventItem)
    (id : Nat) (resp : Except Unit Unit) : Step EventItem :=
  match currentUser with
  | none => ⟨events, [], [], true⟩
  | some u =>
    match resp with
    | .ok _ =>
      ⟨events.filter (fun e => e.id != id), [.deleteEvent id u.id],
       [.success "Event deleted successfully!"], false⟩
    | .error _ =>
      ⟨events, [.deleteEvent id u.id], [.error "Failed to delete event."], false⟩

/-- Embedding of `handleRegister` of the Events page: POST the registration with no auth
guard (a `null` user crashes building the URL, uncaught); the store is never
touched. -/
def eventsHandleRegister (currentUser : Option User) (events : List EventItem)
    (id : Nat) (resp : Except Unit Unit) : Step EventItem :=
  match currentUser with
  | none => ⟨events, [], [], true⟩
  | some u =>
    match resp with
    | .ok _ => ⟨events, [.registerEvent id u.id], [.success "Registered successfully!"], false⟩
    | .error _ => ⟨events, [.registerEvent id u.id], [.error "Failed to register for event."], false⟩

/-- Embedding of `handleCreate` of the Resources page: POST the draft and prepend the
server's created resource.  The `currentUser.id` dereference sits inside the
`try`, so a `null` user is caught and emits the failure toast with no call. -/
def resourcesHandleCreate (currentUser : Option User) (resources : List Resource)
    (resp : Except Unit Resource) : Step Resource :=
  match currentUser with
  | none => ⟨resources, [], [.error "Failed to create"], false⟩
  | some u =>
    match resp with
    | .ok r => ⟨r :: resources, [.postResource u.id], [.success "Resource created"], false⟩
    | .error _ => ⟨resources, [.postResource u.id], [.error "Failed to create"], false⟩

/-- Embedding of `handleUpdate` of the Resources page: PUT the edited fields and replace
the matching resource with the server's response. -/
def resourcesHandleUpdate (currentUser : Option User) (resources : List Resource)
    (editingId : Nat) (resp : Except Unit Resource) : Step Resource :=
  match currentUser with
  | none => ⟨resources, [], [.error "Failed to update"], false⟩
  | some u =>
    match resp with
    | .ok r =>
      ⟨resources.map (fun x => if x.id == editingId then r else x),
       [.putResource editingId u.id], [.success "Resource updated"], false⟩
    | .error _ =>
      ⟨resources, [.putResource editingId u.id], [.error "Failed to update"], false⟩

/-- Embedding of `handleDelete` of the Resources page, gated by `window.confirm`: cancel
performs nothing; confirm DELETEs and on success filters the resource out. -/
def resourcesHandleDelete (currentUser : Option User) (resources : List Resource)
    (id : Nat) (choice : ModalChoice) (resp : Except Unit Unit) : Step Resource :=
  match choice with
  | .cancel => ⟨resources, [], [], false⟩
  | .confirm =>
    match currentUser with
    | none => ⟨resources, [], [.error "Failed to delete resource"], false⟩
    | some u =>
      match resp with
      | .ok _ =>
        ⟨resources.filter (fun r => r.id != id), [.deleteResource id u.id],
         [.success "Resource deleted"], false⟩
      | .error _ =>
        ⟨resources, [.deleteResource id u.id], [.error "Failed to delete resource"], false⟩

/-- A JavaScript value as delivered by the JSON layer of the Fetch Gateway
(plus `undefined`, which property access can produce). -/
inductive JValue where
  | arr (xs : List JValue)
  | obj (fields : List (String × JValue))
  | str (s : String)
  | num (n : Int)
  | boolean (b : Bool)
  | null
  | undefined

/-- JavaScript property access `v.k`: objects yield the field (or
`undefined`), primitives yield `undefined`, and `null`/`undefined` throw a
`TypeError`. -/
def jsGet (v : JValue) (k : String) : Except String JValue :=
  match v with
  | .obj fields => .ok ((fields.lookup k).getD .undefined)
  | .null => .error "TypeError: Cannot read properties of null"
  | .undefined => .error "TypeError: Cannot read properties of undefined"
  | _ => .ok .undefined

/-- JavaScript `Array.isArray`. -/
def isArray : JValue → Bool
  | .arr _ => true
  | _ => false

/-- The response-shape normalization inside `fetchResources`:
`Array.isArray(data) ? data : Array.isArray(data.resources) ? data.resources : []`.
The `data.resources` access throws on a `null` body. -/
def normalizeResourceList (data : JValue) : Except String (List JValue) :=
  match data with
  | .arr xs => .ok xs
  | _ =>
    match jsGet data "resources" with
    | .error e => .error e
    | .ok (.arr xs) => .ok xs
    | .ok _ => .ok []

/-- Embedding of `fetchResources` of the Resources page: GET the list, normalize the body
shape, and replace the store; any failure (including a `TypeError` thrown by
the normalization) is caught, leaves the store alone and emits the failure
toast. -/
def fetchResources (prior : List JValue) (resp : Except Unit JValue) : Step JValue :=
  match resp with
  | .error _ => ⟨prior, [.getResources], [.error "Failed to load resources"], false⟩
  | .ok data =>
    match normalizeResourceList data with
    | .ok list => ⟨list, [.getResources], [.success "Resources Loaded Successfully"], false⟩
    | .error _ => ⟨prior, [.getResources], [.error "Failed to load resources"], false⟩

/-- The state held for the confirmation modal, with the captured callback
abstracted as a value of type `κ`. -/
structure ModalState (κ : Type) where
  isOpen : Bool
  title : String
  message : String
  confirmText : String
  cancelText : String
  onConfirm : κ

/-- A configuration passed to `openModal`. -/
structure ModalConfig (κ : Type) where
  title : String
  message : String
  confirmText : String
  cancelText : String
  onConfirm : κ

/-- Modelled from the spec: the `useConfirmModal` hook (src/hooks/useConfirmModal
is not among the provided sources; only its call sites are).  `openModal`
captures the given title/message/labels/callback as the single modal state —
overwriting whatever configuration was active before — and opens the modal. -/
def openModal {κ : Type} (config : ModalConfig κ) (_s : ModalState κ) : ModalState κ :=
  { isOpen := true
    title := config.title
    message := config.message
    confirmText := config.confirmText
    cancelText := config.cancelText
    onConfirm := config.onConfirm }

/-- Modelled from the spec: `closeModal` of the `useConfirmModal` hook closes
the modal, returning the state machine to `closed`. -/
def closeModal {κ : Type} (s : ModalState κ) : ModalState κ :=
  { s with isOpen := false }

/-- An observable effect of the modal component: invoking a captured
callback, or closing via `onClose`. -/
inductive ModalEffect (κ : Type) where
  | invoke (k : κ)
  | close

/-- The confirm button of `ConfirmModal`:
`onClick={() => { onConfirm(); onClose(); }}` — the effect trace of a click,
in order. -/
def confirmClick {κ : Type} (onConfirm : κ) : List (ModalEffect κ) :=
  [.invoke onConfirm, .close]

/-- The by-id map shared by item update and the local comment patches:
apply `f` to the items whose `id` matches, return every other item as-is. -/
def patchById (id : Nat) (f : Item → Item) (items : List Item) : List Item :=
  items.map fun it => if it.id == id then f it else it

/-- The set (as a list) of userIds currently liking the item with the given
id, as the like-toggle's own scan sees it. -/
def storeLikeUserIds (store : List Item) (planId : Nat) : List String :=
  match store.find? (fun p => p.id == planId) with
  | some p => p.likes.map (fun l => l.userId)
  | none => []

/-- Collection Store invariant: item ids are unique and every item's `likes`
list has at most one entry per `userId`. -/
def StoreInv (store : List Item) : Prop :=
  (store.map Item.id).Nodup ∧
    ∀ p ∈ store, (p.likes.map LikeEntry.userId).Nodup

/-! ## Shared concrete data for witnesses -/

/-- A signed-in demo viewer. -/
def demoUser : User := ⟨"u1", "User One", "", "tok"⟩

/-- The scenario item `{id:1, likes:[]}`. -/
def demoItem : Item := ⟨1, "owner", "Owner", "T", "D", [], []⟩

/-- The scenario server response `{id:1, likes:[{userId:"u1"}]}`. -/
def demoResp : Item := ⟨1, "owner", "Owner", "T", "D", [⟨"u1", "User One"⟩], []⟩

/-! ## Claim C1 -/

/-- C1: for a signed-in viewer, the like toggle scans the store for the item;
if its `likes` contains the viewer's `userId` it issues remove-like and
replaces the item with a copy whose `likes` has every entry of the viewer
filtered out, otherwise it issues add-like and replaces the item with the
server's returned representation; in both cases every item at a position
whose id differs from the target id is returned unchanged. -/
theorem handleLike_toggle_spec (u : User) (plans : List Item) (planId : Nat)
    (p r : Item)
    (hfind : plans.find? (fun q => q.id == planId) = some p) :
    (p.likes.any (fun l => l.userId == u.id) = true →
        (handleLike (some u) plans planId (.ok ()) (.ok r)).store
          = plans.map (fun plan =>
              if plan.id == planId then
                { plan with likes := plan.likes.filter (fun l => l.userId != u.id) }
              else plan) ∧
        (handleLike (some u) plans planId (.ok ()) (.ok r)).calls
          = [.removeLike planId u.id]) ∧
    (p.likes.any (fun l => l.userId == u.id) = false →
        (handleLike (some u) plans planId (.ok ()) (.ok r)).store
          = plans.map (fun plan => if plan.id == planId then r else plan) ∧
        (handleLike (some u) plans planId (.ok ()) (.ok r)).calls
          = [.addLike planId u.id]) ∧
    (∀ i, (h : i < plans.length) → (plans.get ⟨i, h⟩).id ≠ planId →
        (handleLike (some u) plans planId (.ok ()) (.ok r)).store[i]?
          = some (plans.get ⟨i, h⟩)) := by
  refine ⟨?_, ?_, ?_⟩
  · intro hl
    simp [handleLike, hfind, hl]
  · intro hl
    simp [handleLike, hfind, hl]
  · intro i h hne
    simp only [handleLike, hfind]
    cases hl : p.likes.any (fun l => l.userId == u.id) <;>
      simp [List.getElem?_map, List.getElem?_eq_getElem h, List.get_eq_getElem] <;>
      exact fun hh => absurd hh hne

/-- C1 witness: the spec scenario — store `[{id:1, likes:[]}]`, viewer
`"u1"`, gateway returns `{id:1, likes:[{userId:"u1"}]}`, and the store
becomes `[{id:1, likes:[{userId:"u1"}]}]` with exactly one add-like call. -/
theorem handleLike_toggle_spec_witness :
    (handleLike (some demoUser) [demoItem] 1 (.ok ()) (.ok demoResp)).store
        = [demoResp] ∧
    (handleLike (some demoUser) [demoItem] 1 (.ok ()) (.ok demoResp)).calls
        = [.addLike 1 "u1"] :=
  (handleLike_toggle_spec demoUser [demoItem] 1 demoItem demoResp
      (by decide)).2.1 (by decide)

/-! ## Claim C3 -/

/-- C3: `patchById` returns a list of the same length in which every item at
a position whose id differs from the given id is returned unchanged (the
embedding is pure, so previously published items are never mutated), and the
local comment update / comment delete patches are exactly `patchById`
instances. -/
theorem patchById_frame (id : Nat) (f : Item → Item) (items : List Item)
    (planId commentId : Nat) (content : String) (now : Nat) (plans : List Item) :
    (patchById id f items).length = items.length ∧
    (∀ i, (h : i < items.length) → (items.get ⟨i, h⟩).id ≠ id →
        (patchById id f items)[i]? = some (items.get ⟨i, h⟩)) ∧
    handleUpdateComment plans planId commentId content now
      = patchById planId (fun plan =>
          { plan with
            comments := plan.comments.map fun c =>
              if c.id == commentId then
                { c with content := content, updatedAt := now }
              else c }) plans ∧
    handleDeleteComment plans planId commentId
      = patchById planId (fun plan =>
          { plan with comments := plan.comments.filter (fun c => c.id != commentId) })
          plans := by
  refine ⟨List.length_map _ _, ?_, rfl, rfl⟩
  intro i h hne
  simp only [patchById]
  simp [List.getElem?_map, List.getElem?_eq_getElem h, List.get_eq_getElem]
  exact fun hh => absurd hh hne

/-- C3 witness: patching id 5 leaves the (non-matching) item with id 1 at
position 0 unchanged. -/
theorem patchById_frame_witness :
    (patchById 5 (fun it => { it with title := "X" }) [demoItem])[0]?
      = some demoItem :=
  (patchById_frame 5 (fun it => { it with title := "X" }) [demoItem]
      0 0 "" 0 []).2.1 0 (by decide) (by decide)

/-! ## Claim C6 -/

/-- A concrete event for the Events-page scenarios. -/
def demoEvent : EventItem := ⟨1, "E", "d", "2024-01-01", "loc", "cat", 10⟩

/-- C6 counterexample: the Events-page delete admits no confirmation input at
all — the embedding, faithful to the source, calls the gateway immediately —
so at a concrete signed-in input the gateway DELETE is issued and the item is
removed with no blocking confirmation modal shown before the call. -/
theorem eventsHandleDelete_no_modal :
    (eventsHandleDelete (some demoUser) [demoEvent] 1 (.ok ())).calls
        = [.deleteEvent 1 "u1"] ∧
    (eventsHandleDelete (some demoUser) [demoEvent] 1 (.ok ())).store = [] := by
  exact ⟨rfl, rfl⟩

/-- C6 (amended): the Learning-Plan delete is gated by the blocking
confirmation modal and the Resources delete by the blocking `window.confirm`
dialog — cancel leaves the items and makes no gateway call; confirm with a
successful gateway delete removes exactly the items with the given id (an
item survives iff its id differs); confirm with a gateway failure leaves the
store unchanged and emits one failure notification.  The Events-page delete,
by contrast, issues its gateway DELETE immediately with no confirmation
step: the call is made for every outcome, success removes exactly the
matching ids, failure leaves the store unchanged with one notification. -/
theorem item_delete_spec (u : User) (plans : List Item) (planId : Nat)
    (resources : List Resource) (rid : Nat) (events : List EventItem)
    (eid : Nat) (resp : Except Unit Unit) :
    ((handleDeleteFlow (some u) plans planId .cancel resp).store = plans ∧
     (handleDeleteFlow (some u) plans planId .cancel resp).calls = [] ∧
     (handleDeleteFlow (some u) plans planId .cancel resp).notes = []) ∧
    ((handleDeleteFlow (some u) plans planId .confirm (.ok ())).store
        = plans.filter (fun p => p.id != planId) ∧
     (∀ q, q ∈ (handleDeleteFlow (some u) plans planId .confirm (.ok ())).store
        ↔ q ∈ plans ∧ q.id ≠ planId) ∧
     (handleDeleteFlow (some u) plans planId .confirm (.ok ())).calls
        = [.deletePlan planId]) ∧
    ((handleDeleteFlow (some u) plans planId .confirm (.error ())).store = plans ∧
     (handleDeleteFlow (some u) plans planId .confirm (.error ())).notes
        = [.error "Failed to delete learning plan"]) ∧
    ((resourcesHandleDelete (some u) resources rid .cancel resp).store
        = resources ∧
     (resourcesHandleDelete (some u) resources rid .cancel resp).calls = []) ∧
    ((resourcesHandleDelete (some u) resources rid .confirm (.ok ())).store
        = resources.filter (fun r => r.id != rid) ∧
     (resourcesHandleDelete (some u) resources rid .confirm (.ok ())).calls
        = [.deleteResource rid u.id]) ∧
    ((resourcesHandleDelete (some u) resources rid .confirm (.error ())).store
        = resources ∧
     (resourcesHandleDelete (some u) resources rid .confirm (.error ())).notes
        = [.error "Failed to delete resource"]) ∧
    ((eventsHandleDelete (some u) events eid resp).calls
        = [.deleteEvent eid u.id] ∧
     (eventsHandleDelete (some u) events eid (.ok ())).store
        = events.filter (fun e => e.id != eid) ∧
     (eventsHandleDelete (some u) events eid (.error ())).store = events ∧
     (eventsHandleDelete (some u) events eid (.error ())).notes
        = [.error "Failed to delete event."]) := by
  refine ⟨⟨rfl, rfl, rfl⟩, ⟨rfl, ?_, rfl⟩, ⟨rfl, rfl⟩, ⟨rfl, rfl⟩,
    ⟨rfl, rfl⟩, ⟨rfl, rfl⟩, ⟨?_, rfl, rfl, rfl⟩⟩
  · intro q
    simp [handleDeleteFlow, List.mem_filter]
  · cases resp with
    | ok _ => rfl
    | error _ => rfl

/-! ## Claim C7 -/

/-- C7: comment add is server-authoritative — on success the whole matching
item is replaced by the server's response object — while comment update and
comment delete are optimistic-local: on gateway success (whose response
carries no body, as the `Except Unit Unit` outcome type records) the
matching item's comments are patched directly by comment id, replacing
`content`/`updatedAt` resp. filtering the comment out. -/
theorem comment_authority_spec (u : User) (plans : List Item)
    (planId commentId : Nat) (r : Item) (content : String) (now : Nat)
    (ctype : CommentType)
    (hc : (jsTrim content).isEmpty = false) (hct : ctype ≠ .invalid) :
    (handleAddComment (some u) plans planId (.ok r)).store
        = plans.map (fun plan => if plan.id == planId then r else plan) ∧
    (commentUpdateFlow plans planId commentId content now ctype (.ok ())).store
        = plans.map (fun plan =>
            if plan.id == planId then
              { plan with
                comments := plan.comments.map fun c =>
                  if c.id == commentId then
                    { c with content := content, updatedAt := now }
                  else c }
            else plan) ∧
    (commentDeleteFlow (some u) plans planId commentId ctype .confirm (.ok ())).store
        = plans.map (fun plan =>
            if plan.id == planId then
              { plan with comments := plan.comments.filter (fun c => c.id != commentId) }
            else plan) := by
  refine ⟨rfl, ?_, ?_⟩
  · cases ctype <;> simp [commentUpdateFlow, hc, handleUpdateComment] at hct ⊢
  · cases ctype <;> simp [commentDeleteFlow, handleDeleteComment] at hct ⊢

/-- C7 witness: at a concrete store, add replaces the whole item with the
server object, and update patches the comment content locally. -/
theorem comment_authority_spec_witness :
    (handleAddComment (some demoUser) [demoItem] 1 (.ok demoResp)).store
        = [demoItem].map (fun plan => if plan.id == 1 then demoResp else plan) ∧
    (commentUpdateFlow [demoItem] 1 7 "hi" 3 .learningPlans (.ok ())).store
        = [demoItem].map (fun plan =>
            if plan.id == 1 then
              { plan with
                comments := plan.comments.map fun c =>
                  if c.id == 7 then { c with content := "hi", updatedAt := 3 } else c }
            else plan) ∧
    (commentDeleteFlow (some demoUser) [demoItem] 1 7 .learningPlans .confirm (.ok ())).store
        = [demoItem].map (fun plan =>
            if plan.id == 1 then
              { plan with comments := plan.comments.filter (fun c => c.id != 7) }
            else plan) :=
  comment_authority_spec demoUser [demoItem] 1 7 demoResp "hi" 3 .learningPlans
    (by decide) (by decide)

/-! ## Claim C8 -/

/-- C8: the confirm path of the modal emits the invocation of the captured
callback strictly before the close effect, and opening the modal overwrites
the previously captured configuration rather than queuing it — after any
sequence of `openModal` calls the single active configuration is the last
one. -/
theorem confirmModal_machine_spec :
    ∀ (κ : Type) (s : ModalState κ) (c₁ c₂ : ModalConfig κ),
      confirmClick (openModal c₁ s).onConfirm
        = [ModalEffect.invoke c₁.onConfirm, ModalEffect.close] ∧
      openModal c₂ (openModal c₁ s) = openModal c₂ s ∧
      ∀ (cfgs : List (ModalConfig κ)) (c : ModalConfig κ),
        (cfgs.concat c).foldl (fun st cfg => openModal cfg st) s = openModal c s := by
  intro κ s c₁ c₂
  refine ⟨rfl, rfl, ?_⟩
  intro cfgs c
  rw [List.concat_eq_append, List.foldl_append]
  rfl

/-! ## Claim C2 -/

/-- C2 counterexample: in the Events create flow, when the POST succeeds but
the follow-up list refetch fails, the caught failure emits TWO notifications
(the success toast already fired before the refetch), refuting "exactly one
user-facing notification is emitted". -/
theorem eventsHandleSubmit_two_notices :
    ¬ ((eventsHandleSubmit (some demoUser) [] none (.ok ()) (.error ())).notes.length
        = 1) := by
  decide

/-- C2 (amended): every modelled Reconciler operation catches a Fetch
Gateway failure, leaves the Collection Store in its pre-call state, attempts
no retry (a single gateway call at most, plus the one refetch of the Events
flow), and emits exactly one notification — except the Events create/update
flow, where a failure of the post-mutation list refetch emits a success
notification followed by an error notification (two in total), the store
still being the pre-call state. -/
theorem gateway_failure_spec (u : User) (plans : List Item)
    (planId commentId : Nat) (d : PlanDraft) (content : String) (now : Nat)
    (ctype : CommentType) (events : List EventItem) (dataId : Option Nat)
    (resources : List Resource) (editingId rid : Nat)
    (hd : ((jsTrim d.title).isEmpty || (jsTrim d.description).isEmpty) = false)
    (hc : (jsTrim content).isEmpty = false) (hct : ctype ≠ .invalid) :
    ((handleLike (some u) plans planId (.error ()) (.error ())).store = plans ∧
     (handleLike (some u) plans planId (.error ()) (.error ())).notes
        = [.error "Failed to process like"] ∧
     (handleLike (some u) plans planId (.error ()) (.error ())).calls.length = 1) ∧
    ((handlePlanSubmit (some u) plans d (.error ())).store = plans ∧
     (handlePlanSubmit (some u) plans d (.error ())).notes
        = [.error "Failed to share learning plan"] ∧
     (handlePlanSubmit (some u) plans d (.error ())).calls = [.createPlan u.id]) ∧
    ((handleAddComment (some u) plans planId (.error ())).store = plans ∧
     (handleAddComment (some u) plans planId (.error ())).notes
        = [.error "Failed to add comment"] ∧
     (handleAddComment (some u) plans planId (.error ())).calls
        = [.addComment planId]) ∧
    ((handleDeleteFlow (some u) plans planId .confirm (.error ())).store = plans ∧
     (handleDeleteFlow (some u) plans planId .confirm (.error ())).notes
        = [.error "Failed to delete learning plan"] ∧
     (handleDeleteFlow (some u) plans planId .confirm (.error ())).calls
        = [.deletePlan planId]) ∧
    ((commentUpdateFlow plans planId commentId content now ctype (.error ())).store
        = plans ∧
     (commentUpdateFlow plans planId commentId content now ctype (.error ())).notes
        = [.error "Failed to update comment"] ∧
     (commentUpdateFlow plans planId commentId content now ctype (.error ())).calls
        = [.updateComment planId commentId]) ∧
    ((commentDeleteFlow (some u) plans planId commentId ctype .confirm (.error ())).store
        = plans ∧
     (commentDeleteFlow (some u) plans planId commentId ctype .confirm (.error ())).notes
        = [.error "Failed to delete comment"] ∧
     (commentDeleteFlow (some u) plans planId commentId ctype .confirm (.error ())).calls
        = [.deleteComment planId commentId]) ∧
    ((eventsHandleSubmit (some u) events dataId (.error ()) (.error ())).store
        = events ∧
     (eventsHandleSubmit (some u) events dataId (.error ()) (.error ())).notes.length
        = 1 ∧
     (eventsHandleSubmit (some u) events dataId (.error ()) (.error ())).calls.length
        = 1) ∧
    ((eventsHandleSubmit (some u) events dataId (.ok ()) (.error ())).store
        = events ∧
     (∃ s e, (eventsHandleSubmit (some u) events dataId (.ok ()) (.error ())).notes
        = [.success s, .error e])) ∧
    ((eventsHandleDelete (some u) events rid (.error ())).store = events ∧
     (eventsHandleDelete (some u) events rid (.error ())).notes
        = [.error "Failed to delete event."]) ∧
    ((eventsHandleRegister (some u) events rid (.error ())).store = events ∧
     (eventsHandleRegister (some u) events rid (.error ())).notes
        = [.error "Failed to register for event."]) ∧
    ((resourcesHandleCreate (some u) resources (.error ())).store = resources ∧
     (resourcesHandleCreate (some u) resources (.error ())).notes
        = [.error "Failed to create"]) ∧
    ((resourcesHandleUpdate (some u) resources editingId (.error ())).store
        = resources ∧
     (resourcesHandleUpdate (some u) resources editingId (.error ())).notes
        = [.error "Failed to update"]) ∧
    ((resourcesHandleDelete (some u) resources rid .confirm (.error ())).store
        = resources ∧
     (resourcesHandleDelete (some u) resources rid .confirm (.error ())).notes
        = [.error "Failed to delete resource"]) := by
  refine ⟨?_, ?_, ⟨rfl, rfl, rfl⟩, ⟨rfl, rfl, rfl⟩, ?_, ?_, ?_, ?_,
    ⟨rfl, rfl⟩, ⟨rfl, rfl⟩, ⟨rfl, rfl⟩, ⟨rfl, rfl⟩, ⟨rfl, rfl⟩⟩
  · unfold handleLike
    cases hf : plans.find? (fun p => p.id == planId) with
    | none => exact ⟨rfl, rfl, rfl⟩
    | some p =>
      cases hl : p.likes.any (fun l => l.userId == u.id) <;>
        simp [hf, hl]
  · simp [handlePlanSubmit, hd]
  · cases ctype <;> simp [commentUpdateFlow, hc] at hct ⊢
  · cases ctype <;> simp [commentDeleteFlow] at hct ⊢
  · cases dataId <;> exact ⟨rfl, rfl, rfl⟩
  · cases dataId <;> exact ⟨rfl, _, _, rfl⟩

/-- C2 witness: at a concrete store, a failed like toggle leaves the store
and emits the single failure toast. -/
theorem gateway_failure_spec_witness :
    (handleLike (some demoUser) [demoItem] 1 (.error ()) (.error ())).store
        = [demoItem] ∧
    (handleLike (some demoUser) [demoItem] 1 (.error ()) (.error ())).notes
        = [.error "Failed to process like"] ∧
    (handleLike (some demoUser) [demoItem] 1 (.error ()) (.error ())).calls.length
        = 1 :=
  (gateway_failure_spec demoUser [demoItem] 1 1 ⟨"t", "d", "", ""⟩ "c" 0
      .learningPlans [] none [] 1 1 (by decide) (by decide) (by decide)).1

/-! ## Claim C5 -/

/-- C5 counterexample: the Events-page delete invoked with no authenticated
user throws an uncaught TypeError while building the URL and produces ZERO
notifications, refuting "exactly one user-facing notification is
produced". -/
theorem eventsHandleDelete_no_user_no_notice :
    ¬ ((eventsHandleDelete none [] 1 (.ok ())).notes.length = 1) := by
  decide

/-- C5 (amended): with no authenticated user, the mutating actions whose
user access is guarded or sits inside a try/catch (learning-plan create,
like-toggle, comment add, plan delete, comment delete, resource
create/update/delete) perform zero Fetch Gateway calls and produce exactly
one notification; the Events-page actions (create/update, delete, register)
perform zero gateway calls but throw an uncaught TypeError and produce zero
notifications; and the comment update, which has no guard and never reads
the current user (the token prop is merely undefined), still issues its
gateway PUT. -/
theorem no_user_blocks_spec (plans : List Item) (planId : Nat) (d : PlanDraft)
    (events : List EventItem) (dataId : Option Nat) (resources : List Resource)
    (editingId rid commentId : Nat) (content : String) (now : Nat)
    (ctype : CommentType) (respU : Except Unit Unit) (respI : Except Unit Item)
    (respR : Except Unit Resource) (refetch : Except Unit (List EventItem))
    (hc : (jsTrim content).isEmpty = false) (hct : ctype ≠ .invalid) :
    ((commentDeleteFlow none plans planId commentId ctype .confirm respU).calls
        = [] ∧
     (commentDeleteFlow none plans planId commentId ctype .confirm respU).notes.length
        = 1 ∧
     (commentDeleteFlow none plans planId commentId ctype .confirm respU).store
        = plans ∧
     (commentDeleteFlow none plans planId commentId ctype .confirm respU).crash
        = false) ∧
    ((commentUpdateFlow plans planId commentId content now ctype respU).calls
        = [.updateComment planId commentId]) ∧
    ((handleLike none plans planId respU respI).calls = [] ∧
     (handleLike none plans planId respU respI).notes.length = 1 ∧
     (handleLike none plans planId respU respI).store = plans ∧
     (handleLike none plans planId respU respI).crash = false) ∧
    ((handlePlanSubmit none plans d respI).calls = [] ∧
     (handlePlanSubmit none plans d respI).notes.length = 1 ∧
     (handlePlanSubmit none plans d respI).store = plans ∧
     (handlePlanSubmit none plans d respI).crash = false) ∧
    ((handleAddComment none plans planId respI).calls = [] ∧
     (handleAddComment none plans planId respI).notes.length = 1 ∧
     (handleAddComment none plans planId respI).store = plans ∧
     (handleAddComment none plans planId respI).crash = false) ∧
    ((handleDeleteFlow none plans planId .confirm respU).calls = [] ∧
     (handleDeleteFlow none plans planId .confirm respU).notes.length = 1 ∧
     (handleDeleteFlow none plans planId .confirm respU).store = plans ∧
     (handleDeleteFlow none plans planId .confirm respU).crash = false) ∧
    ((resourcesHandleCreate none resources respR).calls = [] ∧
     (resourcesHandleCreate none resources respR).notes.length = 1 ∧
     (resourcesHandleCreate none resources respR).store = resources) ∧
    ((resourcesHandleUpdate none resources editingId respR).calls = [] ∧
     (resourcesHandleUpdate none resources editingId respR).notes.length = 1 ∧
     (resourcesHandleUpdate none resources editingId respR).store = resources) ∧
    ((resourcesHandleDelete none resources rid .confirm respU).calls = [] ∧
     (resourcesHandleDelete none resources rid .confirm respU).notes.length = 1 ∧
     (resourcesHandleDelete none resources rid .confirm respU).store = resources) ∧
    ((eventsHandleSubmit none events dataId respU refetch).calls = [] ∧
     (eventsHandleSubmit none events dataId respU refetch).notes = [] ∧
     (eventsHandleSubmit none events dataId respU refetch).crash = true ∧
     (eventsHandleSubmit none events dataId respU refetch).store = events) ∧
    ((eventsHandleDelete none events rid respU).calls = [] ∧
     (eventsHandleDelete none events rid respU).notes = [] ∧
     (eventsHandleDelete none events rid respU).crash = true ∧
     (eventsHandleDelete none events rid respU).store = events) ∧
    ((eventsHandleRegister none events rid respU).calls = [] ∧
     (eventsHandleRegister none events rid respU).notes = [] ∧
     (eventsHandleRegister none events rid respU).crash = true ∧
     (eventsHandleRegister none events rid respU).store = events) := by
  refine ⟨?_, ?_, ⟨rfl, rfl, rfl, rfl⟩, ⟨rfl, rfl, rfl, rfl⟩,
    ⟨rfl, rfl, rfl, rfl⟩, ⟨rfl, rfl, rfl, rfl⟩, ⟨rfl, rfl, rfl⟩,
    ⟨rfl, rfl, rfl⟩, ⟨rfl, rfl, rfl⟩, ⟨rfl, rfl, rfl, rfl⟩,
    ⟨rfl, rfl, rfl, rfl⟩, ⟨rfl, rfl, rfl, rfl⟩⟩
  · cases ctype <;> simp [commentDeleteFlow] at hct ⊢
  · cases ctype <;> cases respU <;> simp [commentUpdateFlow, hc] at hct ⊢

/-- C5 witness: at concrete inputs with no authenticated user, the comment
delete is caught with zero gateway calls and one notification, while the
comment update still issues its gateway PUT. -/
theorem no_user_blocks_spec_witness :
    ((commentDeleteFlow none [demoItem] 1 7 .learningPlans .confirm (.ok ())).calls
        = [] ∧
     (commentDeleteFlow none [demoItem] 1 7 .learningPlans .confirm (.ok ())).notes.length
        = 1 ∧
     (commentDeleteFlow none [demoItem] 1 7 .learningPlans .confirm (.ok ())).store
        = [demoItem] ∧
     (commentDeleteFlow none [demoItem] 1 7 .learningPlans .confirm (.ok ())).crash
        = false) ∧
    (commentUpdateFlow [demoItem] 1 7 "hi" 3 .learningPlans (.ok ())).calls
        = [.updateComment 1 7] :=
  ⟨(no_user_blocks_spec [demoItem] 1 ⟨"t", "d", "", ""⟩ [] none [] 1 1 7 "hi" 3
      .learningPlans (.ok ()) (.ok demoResp) (.ok ⟨1, "t", "d", "u"⟩) (.ok [])
      (by decide) (by decide)).1,
   (no_user_blocks_spec [demoItem] 1 ⟨"t", "d", "", ""⟩ [] none [] 1 1 7 "hi" 3
      .learningPlans (.ok ()) (.ok demoResp) (.ok ⟨1, "t", "d", "u"⟩) (.ok [])
      (by decide) (by decide)).2.1⟩

/-! ## Claim C10 -/

/-- C10 counterexample: a `null` response body is neither an array nor an
object with a `resources` array, yet the store is NOT set to the empty
list — the `data.resources` access throws, the catch leaves the prior store
in place. -/
theorem fetchResources_null_body :
    ¬ ((fetchResources [JValue.str "x"] (.ok .null)).store = []) := by
  intro h
  simp [fetchResources, normalizeResourceList, jsGet] at h

/-- C10 (amended): the list fetch normalizes the body — an array is taken
as-is; an object whose `resources` field is an array yields that array; any
other object, string, number or boolean yields the empty list; but a `null`
body throws inside the normalization, so the catch leaves the store
unchanged and emits the failure notification instead. -/
theorem fetchResources_normalize_spec (prior : List JValue) (data : JValue) :
    (∀ xs, data = .arr xs → (fetchResources prior (.ok data)).store = xs) ∧
    (∀ fs xs, data = .obj fs → fs.lookup "resources" = some (.arr xs) →
        (fetchResources prior (.ok data)).store = xs) ∧
    (∀ fs, data = .obj fs → (∀ xs, fs.lookup "resources" ≠ some (.arr xs)) →
        (fetchResources prior (.ok data)).store = []) ∧
    (∀ s, data = .str s → (fetchResources prior (.ok data)).store = []) ∧
    (∀ n, data = .num n → (fetchResources prior (.ok data)).store = []) ∧
    (∀ b, data = .boolean b → (fetchResources prior (.ok data)).store = []) ∧
    (data = .null →
        (fetchResources prior (.ok data)).store = prior ∧
        (fetchResources prior (.ok data)).notes
          = [.error "Failed to load resources"]) := by
  refine ⟨?_, ?_, ?_, ?_, ?_, ?_, ?_⟩
  · intro xs h; subst h; rfl
  · intro fs xs h hlk; subst h
    simp [fetchResources, normalizeResourceList, jsGet, hlk]
  · intro fs h hlk; subst h
    rcases hl : fs.lookup "resources" with _ | v
    · simp [fetchResources, normalizeResourceList, jsGet, hl]
    · cases v <;> simp [fetchResources, normalizeResourceList, jsGet, hl]
      exact absurd hl (hlk _)
  · intro s h; subst h; rfl
  · intro n h; subst h; rfl
  · intro b h; subst h; rfl
  · intro h; subst h; exact ⟨rfl, rfl⟩

/-- C10 witness: at the `null` body with a non-empty prior store, the store
stays put and the failure notification is emitted. -/
theorem fetchResources_normalize_spec_witness :
    (fetchResources [JValue.str "x"] (.ok .null)).store = [JValue.str "x"] ∧
    (fetchResources [JValue.str "x"] (.ok .null)).notes
      = [.error "Failed to load resources"] :=
  (fetchResources_normalize_spec [JValue.str "x"] .null).2.2.2.2.2.2 rfl

/-! ## Helper lemmas on the by-id scan and by-id patches -/

/-- If `p` is the unique item of `l` carrying `planId`, the reconciler's scan
finds exactly `p`. -/
lemma find?_id_eq_some (planId : Nat) (p : Item) :
    ∀ l : List Item, p ∈ l → p.id = planId →
      (∀ q ∈ l, q.id = planId → q = p) →
      l.find? (fun q => q.id == planId) = some p := by
  intro l
  induction l with
  | nil => intro hp _ _; cases hp
  | cons a t ih =>
    intro hp hpid hu
    by_cases ha : a.id = planId
    · have hap : a = p := hu a (List.mem_cons_self a t) ha
      subst hap
      simp [List.find?_cons, ha]
    · have hbeq : (a.id == planId) = false := by simpa using ha
      have hpt : p ∈ t := by
        rcases List.mem_cons.mp hp with h | h
        · exact absurd (h ▸ hpid) ha
        · exact h
      rw [List.find?_cons, hbeq]
      exact ih hpt hpid (fun q hq => hu q (List.mem_cons_of_mem a hq))

/-- A by-id patch keeps the target id unique: every member of the patched
list carrying `planId` is the patched image of `p`. -/
lemma patch_unique (planId : Nat) (g : Item → Item) (p : Item) (l : List Item)
    (hu : ∀ q ∈ l, q.id = planId → q = p) :
    ∀ q' ∈ l.map (fun q => if q.id == planId then g q else q),
      q'.id = planId → q' = g p := by
  intro q' hq' hid
  rcases List.mem_map.mp hq' with ⟨q, hq, rfl⟩
  by_cases h : q.id = planId
  · have hqp : q = p := hu q hq h
    subst hqp
    simp [h]
  · simp [h] at hid

/-- The patched image of a member carrying the target id is a member of the
patched list. -/
lemma patch_mem (planId : Nat) (g : Item → Item) (p : Item) (l : List Item)
    (hp : p ∈ l) (hpid : p.id = planId) :
    g p ∈ l.map (fun q => if q.id == planId then g q else q) := by
  refine List.mem_map.mpr ⟨p, hp, ?_⟩
  simp [hpid]

/-- The scan of a by-id-patched list finds the patched image of the unique
original carrier, provided the patch keeps its id. -/
lemma find?_patch (planId : Nat) (g : Item → Item) (p : Item) (l : List Item)
    (hp : p ∈ l) (hpid : p.id = planId)
    (hu : ∀ q ∈ l, q.id = planId → q = p)
    (hg : (g p).id = planId) :
    (l.map (fun q => if q.id == planId then g q else q)).find?
        (fun q => q.id == planId) = some (g p) :=
  find?_id_eq_some planId (g p) _ (patch_mem planId g p l hp hpid) hg
    (patch_unique planId g p l hu)

/-- A by-id patch whose patching function keeps ids leaves the id sequence of
the store unchanged. -/
lemma patch_map_id (planId : Nat) (g : Item → Item) (l : List Item)
    (hg : ∀ q, q.id = planId → (g q).id = q.id) :
    (l.map (fun q => if q.id == planId then g q else q)).map Item.id
      = l.map Item.id := by
  rw [List.map_map]
  refine List.map_congr_left ?_
  intro q _
  by_cases h : q.id = planId
  · simp [h, hg q h]
  · simp [h]

/-- A by-id patch preserves the Collection Store invariants when the
patching function keeps the id and keeps the likes list duplicate-free. -/
lemma storeInv_patch (planId : Nat) (g : Item → Item) (l : List Item)
    (hInv : StoreInv l)
    (hgid : ∀ q, q.id = planId → (g q).id = q.id)
    (hglikes : ∀ q ∈ l, q.id = planId → (q.likes.map LikeEntry.userId).Nodup →
        ((g q).likes.map LikeEntry.userId).Nodup) :
    StoreInv (l.map (fun q => if q.id == planId then g q else q)) := by
  constructor
  · rw [patch_map_id planId g l hgid]
    exact hInv.1
  · intro p hp
    rcases List.mem_map.mp hp with ⟨q, hq, rfl⟩
    by_cases h : q.id = planId
    · simp only [h, beq_self_eq_true, if_true]
      exact hglikes q hq h (hInv.2 q hq)
    · have hbeq : (q.id == planId) = false := by simpa using h
      simp only [hbeq, Bool.false_eq_true, if_false]
      exact hInv.2 q hq

/-- The store produced by a like toggle through a successful add response is
one of: the untouched store (caught remove failure), the replacement patch
(add branch), or the likes-filtering patch (remove branch). -/
lemma handleLike_store_cases (u : User) (plans : List Item) (planId : Nat)
    (rr : Except Unit Unit) (a : Item) :
    (handleLike (some u) plans planId rr (.ok a)).store = plans ∨
    (handleLike (some u) plans planId rr (.ok a)).store
      = plans.map (fun q => if q.id == planId then a else q) ∨
    (handleLike (some u) plans planId rr (.ok a)).store
      = plans.map (fun q =>
          if q.id == planId then
            { q with likes := q.likes.filter (fun l => l.userId != u.id) }
          else q) := by
  cases hf : plans.find? (fun p => p.id == planId) with
  | none =>
    right; left
    simp [handleLike, hf]
  | some p =>
    cases hl : p.likes.any (fun l => l.userId == u.id) with
    | false =>
      right; left
      simp [handleLike, hf, hl]
    | true =>
      cases rr with
      | ok _ =>
        right; right
        simp [handleLike, hf, hl]
      | error _ =>
        left
        simp [handleLike, hf, hl]

/-! ## Claim C9 -/

/-- C9: each modelled Reconciler operation preserves the Collection Store
invariants — unique item ids and at-most-one like per userId — assuming the
server responses themselves respect them (the created item's id is fresh,
item-replacing responses carry the target id and duplicate-free likes); in
addition the local comment update preserves each item's comment-id sequence
and the local comment delete leaves each item's comments a subsequence of
what they were. -/
theorem reconciler_invariants (u : User) (plans : List Item)
    (planId commentId : Nat) (d : PlanDraft) (content : String) (now : Nat)
    (r a : Item) (rr : Except Unit Unit)
    (hInv : StoreInv plans)
    (hfresh : r.id ∉ plans.map Item.id)
    (hrlikes : (r.likes.map LikeEntry.userId).Nodup)
    (haid : a.id = planId)
    (halikes : (a.likes.map LikeEntry.userId).Nodup) :
    StoreInv ((handlePlanSubmit (some u) plans d (.ok r)).store) ∧
    StoreInv ((handleLike (some u) plans planId rr (.ok a)).store) ∧
    StoreInv ((handleAddComment (some u) plans planId (.ok a)).store) ∧
    StoreInv (handleUpdateComment plans planId commentId content now) ∧
    StoreInv (handleDeleteComment plans planId commentId) ∧
    StoreInv ((handleDeleteFlow (some u) plans planId .confirm (.ok ())).store) ∧
    (handleUpdateComment plans planId commentId content now).map
        (fun p => p.comments.map CommentEntry.id)
      = plans.map (fun p => p.comments.map CommentEntry.id) ∧
    List.Forall₂ (fun q q' => q'.comments.Sublist q.comments) plans
      (handleDeleteComment plans planId commentId) := by
  have hconstA : StoreInv (plans.map (fun q => if q.id == planId then a else q)) := by
    refine storeInv_patch planId (fun _ => a) plans hInv ?_ ?_
    · intro q hq
      rw [haid, hq]
    · intro q _ _ _
      exact halikes
  have hfilterLikes :
      StoreInv (plans.map (fun q =>
        if q.id == planId then
          { q with likes := q.likes.filter (fun l => l.userId != u.id) }
        else q)) := by
    refine storeInv_patch planId _ plans hInv (fun q _ => rfl) ?_
    intro q _ _ hq
    exact List.Nodup.sublist ((q.likes.filter_sublist).map _) hq
  refine ⟨?_, ?_, hconstA, ?_, ?_, ?_, ?_, ?_⟩
  · unfold handlePlanSubmit
    cases hv : (jsTrim d.title).isEmpty || (jsTrim d.description).isEmpty with
    | true => simpa [hv] using hInv
    | false =>
      simp only [hv, Bool.false_eq_true, if_false]
      constructor
      · exact List.nodup_cons.mpr ⟨hfresh, hInv.1⟩
      · intro p hp
        rcases List.mem_cons.mp hp with h | h
        · exact h ▸ hrlikes
        · exact hInv.2 p h
  · rcases handleLike_store_cases u plans planId rr a with h | h | h <;> rw [h]
    exacts [hInv, hconstA, hfilterLikes]
  · refine storeInv_patch planId _ plans hInv (fun q _ => rfl) ?_
    intro q _ _ hq
    exact hq
  · refine storeInv_patch planId _ plans hInv (fun q _ => rfl) ?_
    intro q _ _ hq
    exact hq
  · constructor
    · exact List.Nodup.sublist ((List.filter_sublist plans).map _) hInv.1
    · intro p hp
      exact hInv.2 p (List.mem_of_mem_filter hp)
  · unfold handleUpdateComment
    rw [List.map_map]
    refine List.map_congr_left ?_
    intro q _
    by_cases h : q.id = planId
    · simp only [Function.comp_apply, h, beq_self_eq_true, if_true]
      rw [List.map_map]
      refine List.map_congr_left ?_
      intro c _
      by_cases hc : c.id = commentId
      · simp [hc]
      · simp [hc]
    · simp [h]
  · unfold handleDeleteComment
    rw [List.forall₂_map_right_iff, List.forall₂_same]
    intro q _
    by_cases h : q.id = planId
    · simp only [h, beq_self_eq_true, if_true]
      exact List.filter_sublist _
    · have hbeq : (q.id == planId) = false := by simpa using h
      simp only [hbeq, Bool.false_eq_true, if_false]
      exact List.Sublist.refl _

/-- C9 witness: a concrete store of one item keeps the invariants across the
operations (shown here for create with a fresh id and for the like toggle
through the authoritative response). -/
theorem reconciler_invariants_witness :
    StoreInv ((handlePlanSubmit (some demoUser) [demoItem]
        ⟨"t", "d", "", ""⟩ (.ok ⟨2, "o", "O", "t", "d", [], []⟩)).store) ∧
    StoreInv ((handleLike (some demoUser) [demoItem] 1 (.ok ()) (.ok demoResp)).store) :=
  ⟨(reconciler_invariants demoUser [demoItem] 1 1 ⟨"t", "d", "", ""⟩ "c" 0
      ⟨2, "o", "O", "t", "d", [], []⟩ demoResp (.ok ())
      ⟨by decide, by decide⟩ (by decide) (by decide) (by decide) (by decide)).1,
   (reconciler_invariants demoUser [demoItem] 1 1 ⟨"t", "d", "", ""⟩ "c" 0
      ⟨2, "o", "O", "t", "d", [], []⟩ demoResp (.ok ())
      ⟨by decide, by decide⟩ (by decide) (by decide) (by decide) (by decide)).2.1⟩

/-! ## Claim C4 -/

/-- C4: toggling the like twice in sequence (awaiting each toggle, both
gateway calls succeeding, and each add-like response consisting of exactly
the likes the item had at that moment plus the viewer's entry) returns the
set of liking userIds of the item to its original membership. -/
theorem like_toggle_roundtrip (u : User) (plans : List Item) (planId : Nat)
    (p a b : Item)
    (hp : p ∈ plans) (hpid : p.id = planId)
    (hu : ∀ q ∈ plans, q.id = planId → q = p)
    (haid : a.id = planId)
    (halikes : a.likes = p.likes ++ [⟨u.id, u.name⟩])
    (hbid : b.id = planId)
    (hblikes : b.likes
        = p.likes.filter (fun l => l.userId != u.id) ++ [⟨u.id, u.name⟩]) :
    ∀ x, x ∈ storeLikeUserIds
        ((handleLike (some u)
            ((handleLike (some u) plans planId (.ok ()) (.ok a)).store)
            planId (.ok ()) (.ok b)).store) planId
      ↔ x ∈ storeLikeUserIds plans planId := by
  intro x
  have hfind1 : plans.find? (fun q => q.id == planId) = some p :=
    find?_id_eq_some planId p plans hp hpid hu
  cases hl : p.likes.any (fun l => l.userId == u.id) with
  | false =>
    have hs1 : (handleLike (some u) plans planId (.ok ()) (.ok a)).store
        = plans.map (fun q => if q.id == planId then a else q) := by
      simp only [handleLike, hfind1, hl, Bool.false_eq_true, if_false]
    have hfind2 : (plans.map (fun q => if q.id == planId then a else q)).find?
        (fun q => q.id == planId) = some a :=
      find?_patch planId (fun _ => a) p plans hp hpid hu haid
    have hl2 : a.likes.any (fun l => l.userId == u.id) = true := by
      rw [halikes]
      simp
    have hs2 : (handleLike (some u)
          (plans.map (fun q => if q.id == planId then a else q))
          planId (.ok ()) (.ok b)).store
        = (plans.map (fun q => if q.id == planId then a else q)).map
            (fun q =>
              if q.id == planId then
                { q with likes := q.likes.filter (fun l => l.userId != u.id) }
              else q) := by
      simp only [handleLike, hfind2, hl2, if_true]
    have hfind3 : ((plans.map (fun q => if q.id == planId then a else q)).map
          (fun q =>
            if q.id == planId then
              { q with likes := q.likes.filter (fun l => l.userId != u.id) }
            else q)).find? (fun q => q.id == planId)
        = some { a with likes := a.likes.filter (fun l => l.userId != u.id) } :=
      find?_patch planId
        (fun q => { q with likes := q.likes.filter (fun l => l.userId != u.id) })
        a _ (List.mem_of_find?_eq_some hfind2) haid
        (patch_unique planId (fun _ => a) p plans hu) haid
    have hnotin : ∀ l' ∈ p.likes, l'.userId ≠ u.id := by
      intro l' hmem heq
      have hany : p.likes.any (fun l => l.userId == u.id) = true :=
        List.any_eq_true.mpr ⟨l', hmem, by simp [heq]⟩
      simp [hany] at hl
    have hfa : a.likes.filter (fun l => l.userId != u.id) = p.likes := by
      rw [halikes, List.filter_append]
      have h1 : p.likes.filter (fun l => l.userId != u.id) = p.likes :=
        List.filter_eq_self.mpr
          (fun l hm => by simp [bne_iff_ne, hnotin l hm])
      have h2 : ([(⟨u.id, u.name⟩ : LikeEntry)].filter
          (fun l => l.userId != u.id)) = [] := by simp
      rw [h1, h2, List.append_nil]
    rw [hs1, hs2]
    simp only [storeLikeUserIds, hfind3, hfind1, hfa]
  | true =>
    have hs1 : (handleLike (some u) plans planId (.ok ()) (.ok a)).store
        = plans.map (fun q =>
            if q.id == planId then
              { q with likes := q.likes.filter (fun l => l.userId != u.id) }
            else q) := by
      simp only [handleLike, hfind1, hl, if_true]
    have hfind2 : (plans.map (fun q =>
          if q.id == planId then
            { q with likes := q.likes.filter (fun l => l.userId != u.id) }
          else q)).find? (fun q => q.id == planId)
        = some { p with likes := p.likes.filter (fun l => l.userId != u.id) } :=
      find?_patch planId
        (fun q => { q with likes := q.likes.filter (fun l => l.userId != u.id) })
        p plans hp hpid hu hpid
    have hl2 : (p.likes.filter (fun l => l.userId != u.id)).any
        (fun l => l.userId == u.id) = false := by
      by_contra hcon
      rw [Bool.not_eq_false, List.any_eq_true] at hcon
      rcases hcon with ⟨l', hm, hq⟩
      have h1 := (List.mem_filter.mp hm).2
      rw [beq_iff_eq] at hq
      rw [hq] at h1
      simp at h1
    have hs2 : (handleLike (some u)
          (plans.map (fun q =>
            if q.id == planId then
              { q with likes := q.likes.filter (fun l => l.userId != u.id) }
            else q))
          planId (.ok ()) (.ok b)).store
        = (plans.map (fun q =>
            if q.id == planId then
              { q with likes := q.likes.filter (fun l => l.userId != u.id) }
            else q)).map (fun q => if q.id == planId then b else q) := by
      simp only [handleLike, hfind2, hl2, Bool.false_eq_true, if_false]
    have hfind3 : ((plans.map (fun q =>
          if q.id == planId then
            { q with likes := q.likes.filter (fun l => l.userId != u.id) }
          else q)).map (fun q => if q.id == planId then b else q)).find?
            (fun q => q.id == planId) = some b :=
      find?_patch planId (fun _ => b)
        { p with likes := p.likes.filter (fun l => l.userId != u.id) } _
        (List.mem_of_find?_eq_some hfind2) hpid
        (patch_unique planId
          (fun q => { q with likes := q.likes.filter (fun l => l.userId != u.id) })
          p plans hu)
        hbid
    rw [hs1, hs2]
    simp only [storeLikeUserIds, hfind3, hfind1, hblikes]
    rw [List.map_append]
    constructor
    · intro hx
      rcases List.mem_append.mp hx with hx | hx
      · rcases List.mem_map.mp hx with ⟨l', hm, rfl⟩
        exact List.mem_map.mpr ⟨l', (List.mem_filter.mp hm).1, rfl⟩
      · have hx' : x = u.id := by simpa using hx
        subst hx'
        rcases List.any_eq_true.mp hl with ⟨l', hm, hq⟩
        rw [beq_iff_eq] at hq
        exact List.mem_map.mpr ⟨l', hm, hq⟩
    · intro hx
      rcases List.mem_map.mp hx with ⟨l', hm, rfl⟩
      by_cases hxu : l'.userId = u.id
      · exact List.mem_append.mpr (Or.inr (by simp [hxu]))
      · refine List.mem_append.mpr (Or.inl ?_)
        exact List.mem_map.mpr
          ⟨l', List.mem_filter.mpr ⟨hm, by simp [bne_iff_ne, hxu]⟩, rfl⟩

/-- C4 witness: starting from `[{id:1, likes:[]}]`, liking and unliking in
sequence returns the liking userIds to their original membership
(`"u1"` liked neither before nor after). -/
theorem like_toggle_roundtrip_witness :
    "u1" ∈ storeLikeUserIds
        ((handleLike (some demoUser)
            ((handleLike (some demoUser) [demoItem] 1 (.ok ()) (.ok demoResp)).store)
            1 (.ok ()) (.ok demoResp)).store) 1
      ↔ "u1" ∈ storeLikeUserIds [demoItem] 1 :=
  like_toggle_roundtrip demoUser [demoItem] 1 demoItem demoResp demoResp
    (by decide) (by decide) (by decide) (by decide) (by decide) (by decide)
    (by decide) "u1"

end FocusFusion
